import Mathlib

/-!
Shallow embedding of the nexus-lib language core: the tree-walking
evaluator (`src/evaluator.rs`) and the recursive-descent parser
(`src/parser.rs`).  Rust `f64` is modelled abstractly by a `FloatModel`:
a carrier type together with the native IEEE-754 operations the
evaluator applies (`+`, `-`, `*`, `/`, unary `-`, `>`, `<`, `>=`, `<=`,
`==`).  Every theorem about numeric evaluation is stated for an
arbitrary model, so it says exactly that the evaluator applies the
native operation and nothing else.
-/

namespace Nexus

/-- Abstract model of Rust's `f64` together with the native IEEE-754
operations used by `eval_integer_infix_expression` and
`eval_minus_expression`.  `beq` models `==` on `f64` (a `Bool`-valued
operation that need not be reflexive, mirroring `NaN != NaN`). -/
structure FloatModel where
  F : Type
  add : F → F → F
  sub : F → F → F
  mul : F → F → F
  div : F → F → F
  neg : F → F
  gt : F → F → Bool
  lt : F → F → Bool
  ge : F → F → Bool
  le : F → F → Bool
  beq : F → F → Bool

/-- Operators of the AST (`ast.rs` is outside `src/`; the variants are
the ones the evaluator matches on). -/
inductive Operator where
  | PLUS | MINUS | MULTIPLY | DIVIDE
  | GREATTHAN | LESSTHAN | GREATOREQUAL | LESSOREQUAL
  | EQUAL | NOTEQUAL | BANG
  deriving DecidableEq, Repr

/-- `BooleanType` from the object model: the payload of `Bool` objects. -/
inductive BooleanType where
  | TRUE | FALSE
  deriving DecidableEq, Repr

/-- `IfType` tag of an `IfExpression` link: distinguishes the head `if`
from `elseif` and `else` links of a conditional chain. -/
inductive IfType where
  | IF | ELSEIF | ELSE
  deriving DecidableEq, Repr

/-- Modelled from the spec: the built-in function registry (`builtin.rs`
is not under `src/`); the spec names a single print primitive. -/
inductive BuiltinFunction where
  | PRINT
  deriving DecidableEq, Repr

/-- Modelled from the spec: `BuiltinFunction::PRINT.name()`, the
registered name the evaluator compares a callee identifier against. -/
def printName : String := "print"

mutual
/-- The runtime object model (`object.rs` is not under `src/`; the
variants and payloads follow spec §3 and their uses in the evaluator).
Wrapper structs (`Num { value }`, `Bool { value }`, `Return { value }`,
`BuiltInFunction { func, args }`) are flattened into constructor
arguments; `None`'s `NoneLit` payload is a unit struct and is dropped. -/
inductive Object (F : Type) where
  | Num : F → Object F
  | Bool : BooleanType → Object F
  | None : Object F
  | Return : Object F → Object F
  | Error : ErrMsg F → Object F
  | UnMetIf : Object F
  | BuiltInFunction : BuiltinFunction → List (Object F) → Object F

/-- The evaluator's `Error` objects carry a `String` built by `format!`.
Each `format!` call site is modelled by one constructor carrying the
values it interpolates; two messages are equal iff they come from the
same site with the same interpolated values, matching string equality
of the formatted text. -/
inductive ErrMsg (F : Type) where
  | illegalPrefixOperation : Operator → ErrMsg F
  | unknownOperation : Object F → Object F → Operator → ErrMsg F
  | leftNotNumber : Object F → ErrMsg F
  | rightNotNumber : Object F → ErrMsg F
  | cannotEvaluateEmpty : ErrMsg F
  | invalidCondition : Object F → ErrMsg F
end

mutual
/-- Structural equality on objects: Rust's derived `PartialEq` for
`Object` (spec §3: "Equality is defined structurally on variant+payload;
`Num` equality is IEEE-754 float equality"), parameterised by the
model's `f64` equality `beq`. -/
def objBeq (beq : F → F → Bool) : Object F → Object F → Bool
  | .Num a, .Num b => beq a b
  | .Bool a, .Bool b => a == b
  | .None, .None => true
  | .Return a, .Return b => objBeq beq a b
  | .Error a, .Error b => errBeq beq a b
  | .UnMetIf, .UnMetIf => true
  | .BuiltInFunction f a, .BuiltInFunction g b => f == g && objListBeq beq a b
  | _, _ => false

/-- Structural equality on error messages (models string equality of the
formatted messages). -/
def errBeq (beq : F → F → Bool) : ErrMsg F → ErrMsg F → Bool
  | .illegalPrefixOperation a, .illegalPrefixOperation b => a == b
  | .unknownOperation l1 r1 o1, .unknownOperation l2 r2 o2 =>
      objBeq beq l1 l2 && objBeq beq r1 r2 && o1 == o2
  | .leftNotNumber a, .leftNotNumber b => objBeq beq a b
  | .rightNotNumber a, .rightNotNumber b => objBeq beq a b
  | .cannotEvaluateEmpty, .cannotEvaluateEmpty => true
  | .invalidCondition a, .invalidCondition b => objBeq beq a b
  | _, _ => false

/-- Structural equality on argument lists (derived `PartialEq` on
`Vec<Object>`). -/
def objListBeq (beq : F → F → Bool) : List (Object F) → List (Object F) → Bool
  | [], [] => true
  | a :: al, b :: bl => objBeq beq a b && objListBeq beq al bl
  | _, _ => false
end

/-- Modelled from the spec: `ObjectType` (`object.rs` is not under
`src/`); the evaluator only tests `get_type() == ObjectType::NUMBER`. -/
inductive ObjectType where
  | NUMBER | BOOLEAN | NONE | RETURN | ERROR | UNMETIF | BUILTINFUNCTION
  deriving DecidableEq, Repr

/-- Modelled from the spec: `Object::get_type`, the variant tag used by
`eval_infix_expression` to test for numeric operands. -/
def Object.get_type : Object F → ObjectType
  | .Num _ => .NUMBER
  | .Bool _ => .BOOLEAN
  | .None => .NONE
  | .Return _ => .RETURN
  | .Error _ => .ERROR
  | .UnMetIf => .UNMETIF
  | .BuiltInFunction _ _ => .BUILTINFUNCTION

/-- Result of `is_truthy`: it either returns a `bool` normally, or calls
`util::throw_error`, which prints the message and terminates the whole
process (`fatal`).  The `fatal` outcome is not an `Object`, so a fatal
condition can never surface as a recoverable `Object::Error`. -/
inductive Truthiness where
  | val : Bool → Truthiness
  | fatal : Truthiness
  deriving DecidableEq, Repr

/-- `is_truthy` (`evaluator.rs:209`): `Bool(TRUE)` ↦ `true`,
`Bool(FALSE)` ↦ `false`, `None` ↦ `false`; every other variant hits the
wildcard arm, which calls `throw_error` and terminates the process. -/
def is_truthy : Object F → Truthiness
  | .Bool b => match b with
    | .TRUE => .val true
    | .FALSE => .val false
  | .None => .val false
  | _ => .fatal

/-- `native_bool_to_object` (`evaluator.rs:225`). -/
def native_bool_to_object (b : Bool) : Object F :=
  match b with
  | true => .Bool .TRUE
  | false => .Bool .FALSE

/-- Outcome of evaluating a statement or expression: a normal `Object`,
a fatal process termination via `util::throw_error` (`fatal`), or a
`todo!()`/panic (`panic`). -/
inductive Outcome (F : Type) where
  | ok : Object F → Outcome F
  | fatal : Outcome F
  | panic : Outcome F

/-- `eval_bang_expression` (`evaluator.rs:236`): flips booleans, maps
`None` to itself (returning `right` unchanged), and `todo!()`-panics on
every other operand. -/
def eval_bang_expression (right : Object F) : Outcome F :=
  match right with
  | .Bool b => match b with
    | .TRUE => .ok (.Bool .FALSE)
    | .FALSE => .ok (.Bool .TRUE)
  | .None => .ok right
  | _ => .panic

/-- `eval_minus_expression` (`evaluator.rs:251`): negates `Num` and
returns every other operand unchanged. -/
def eval_minus_expression (M : FloatModel) (right : Object M.F) : Object M.F :=
  match right with
  | .Num v => .Num (M.neg v)
  | _ => right

/-- `eval_integer_infix_expression` (`evaluator.rs:93`): extracts the
two `f64` payloads (producing an `Error` if either operand is not a
`Num`) and applies the native operation; the wildcard operator arm
yields `None`. -/
def eval_integer_infix_expression (M : FloatModel) (operator : Operator)
    (left right : Object M.F) : Object M.F :=
  match left with
  | .Num left_val =>
    match right with
    | .Num right_val =>
      match operator with
      | .PLUS => .Num (M.add left_val right_val)
      | .MINUS => .Num (M.sub left_val right_val)
      | .MULTIPLY => .Num (M.mul left_val right_val)
      | .DIVIDE => .Num (M.div left_val right_val)
      | .GREATTHAN => native_bool_to_object (M.gt left_val right_val)
      | .LESSTHAN => native_bool_to_object (M.lt left_val right_val)
      | .GREATOREQUAL => native_bool_to_object (M.ge left_val right_val)
      | .LESSOREQUAL => native_bool_to_object (M.le left_val right_val)
      | .EQUAL => native_bool_to_object (M.beq left_val right_val)
      | .NOTEQUAL => native_bool_to_object (!(M.beq left_val right_val))
      | _ => .None
    | _ => .Error (.rightNotNumber right)
  | _ => .Error (.leftNotNumber left)

/-- The head-link match test of `eval_if_expression` (`evaluator.rs:158`):
`condition != Object::None(NoneLit) && self.is_truthy(condition)`.  Rust's
`&&` short-circuits, so `is_truthy` — with its fatal wildcard arm — is
only reached when the condition object is not `None` (and `None` itself
is falsy anyway). -/
def cond_check (beq : F → F → Bool) (c : Object F) : Truthiness :=
  if objBeq beq c .None then .val false else is_truthy c

/-- The tail-link match test of `eval_else_expression` (`evaluator.rs:174`):
`alt.if_type == IfType::ELSE || alt.if_type == IfType::ELSEIF &&
self.is_truthy(condition)` — `&&` binds tighter than `||` and both
short-circuit, so an `ELSE` link matches unconditionally and `is_truthy`
is only called on `ELSEIF` links. -/
def else_check (if_type : IfType) (c : Object F) : Truthiness :=
  if if_type == IfType.ELSE then .val true
  else if if_type == IfType.ELSEIF then is_truthy c
  else .val false

mutual
/-- Statement AST (`ast.rs` is not under `src/`; variants follow spec §3
and the evaluator's match).  Payloads the evaluator never reads
(`VAR`, `CONST`, `LOCAL` reach `todo!()`) are reduced to the declared
name; `BlockStatement { statements }` is flattened to its list.
`ReturnStatement`'s `return_value` is the expression the evaluator
feeds back through `Statement::EXPRESSION`. -/
inductive Statement (F : Type) where
  | VAR : String → Statement F
  | CONST : String → Statement F
  | RETURN : Expression F → Statement F
  | LOCAL : String → Statement F
  | EXPRESSION : Expression F → Statement F
  | EMPTY : Statement F
  | BLOCK : List (Statement F) → Statement F

/-- Expression AST.  `PrefixExpression { operator, right }` and
`InfixExpression { operator, left, right }` are flattened into
constructor arguments, as is `CallExpression { function, args }`.
Variants the evaluator `todo!()`s on (`WHILE`, `FOR`, `FUNC`, `LIST`,
`INDEX`, the annotation form `ANNOT`) carry no payload here since it is
never read. -/
inductive Expression (F : Type) where
  | IDENTIFIER : String → Expression F
  | NUMBERLITERAL : F → Expression F
  | STRINGLITERAL : String → Expression F
  | PREFIXEXPR : Operator → Expression F → Expression F
  | INFIXEXPR : Operator → Expression F → Expression F → Expression F
  | BOOLEAN : BooleanType → Expression F
  | IF : IfExpression F → Expression F
  | WHILE : Expression F
  | FOR : Expression F
  | FUNC : Expression F
  | CALL : Expression F → List (Expression F) → Expression F
  | LIST : Expression F
  | INDEX : Expression F
  | ANNOT : Expression F
  | NONE : Expression F
  | EMPTY : Expression F

/-- `IfExpression { if_type, condition, consequence, alternative }`:
one link of an `if`/`elseif`/`else` chain; `alternative` is the boxed
next link. `consequence` is the block's statement list. -/
inductive IfExpression (F : Type) where
  | mk : IfType → Option (Expression F) → List (Statement F) →
      Option (IfExpression F) → IfExpression F
end

/-- `Program { statements }`: the parser's output, evaluated top-level. -/
structure Program (F : Type) where
  statements : List (Statement F)

/-- Outcome of evaluating the arguments of a call: the collected
objects, or a propagated fatal abort / panic from inside an argument. -/
inductive ArgsOutcome (F : Type) where
  | ok : List (Object F) → ArgsOutcome F
  | fatal : ArgsOutcome F
  | panic : ArgsOutcome F

mutual
/-- `eval_statement` (`evaluator.rs:30`): `VAR`, `CONST`, `LOCAL` and
`EMPTY` are `todo!()` (panic). -/
def eval_statement (M : FloatModel) : Statement M.F → Outcome M.F
  | .VAR _ => .panic
  | .CONST _ => .panic
  | .RETURN ret => eval_return_statement M ret
  | .LOCAL _ => .panic
  | .EXPRESSION expr => eval_expression M expr
  | .EMPTY => .panic
  | .BLOCK block => eval_block_go M block .None
termination_by s => (sizeOf s, 0)
decreasing_by all_goals (simp_wf; try simp [Prod.lex_def]; try omega)

/-- `eval_expression` (`evaluator.rs:42`). -/
def eval_expression (M : FloatModel) : Expression M.F → Outcome M.F
  | .IDENTIFIER _ => .panic
  | .NUMBERLITERAL num => .ok (.Num num)
  | .STRINGLITERAL _ => .ok .None
  | .PREFIXEXPR operator right => eval_prefix_expression M operator right
  | .INFIXEXPR operator left right => eval_infix_expression M operator left right
  | .BOOLEAN b => .ok (.Bool b)
  | .IF lit => eval_if_expression M lit
  | .WHILE => .panic
  | .FOR => .panic
  | .FUNC => .panic
  | .CALL function args => eval_call M function args
  | .LIST => .panic
  | .INDEX => .panic
  | .ANNOT => .panic
  | .NONE => .ok .None
  | .EMPTY => .ok (.Error .cannotEvaluateEmpty)
termination_by e => (sizeOf e, 0)
decreasing_by all_goals (simp_wf; try simp [Prod.lex_def]; try omega)

/-- `eval_prefix_expression` (`evaluator.rs:65`): evaluates the operand
then dispatches on the operator; the wildcard arm yields an `Error`. -/
def eval_prefix_expression (M : FloatModel) (operator : Operator)
    (right : Expression M.F) : Outcome M.F :=
  match eval_expression M right with
  | .fatal => .fatal
  | .panic => .panic
  | .ok r =>
    match operator with
    | .BANG => eval_bang_expression r
    | .PLUS => .ok r
    | .MINUS => .ok (eval_minus_expression M r)
    | _ => .ok (.Error (.illegalPrefixOperation operator))
termination_by (sizeOf right, 1)
decreasing_by all_goals (simp_wf; try simp [Prod.lex_def]; try omega)

/-- `eval_infix_expression` (`evaluator.rs:77`): evaluates left then
right; if both are numbers dispatches to the numeric handler, otherwise
only `==`/`!=` (structural equality) are defined and anything else is
an `Error` naming both operands and the operator. -/
def eval_infix_expression (M : FloatModel) (operator : Operator)
    (left right : Expression M.F) : Outcome M.F :=
  match eval_expression M left with
  | .fatal => .fatal
  | .panic => .panic
  | .ok l =>
    match eval_expression M right with
    | .fatal => .fatal
    | .panic => .panic
    | .ok r =>
      if l.get_type == ObjectType.NUMBER && r.get_type == ObjectType.NUMBER then
        .ok (eval_integer_infix_expression M operator l r)
      else if operator == Operator.EQUAL then
        .ok (native_bool_to_object (objBeq M.beq l r))
      else if operator == Operator.NOTEQUAL then
        .ok (native_bool_to_object (!(objBeq M.beq l r)))
      else
        .ok (.Error (.unknownOperation l r operator))
termination_by (sizeOf left + sizeOf right, 1)
decreasing_by all_goals (simp_wf; try simp [Prod.lex_def]; try omega)

/-- `eval_block_statement`'s loop (`evaluator.rs:136`): `result` starts
as `None`, each statement overwrites it, and only a `Return` result
stops the loop (returned still wrapped); every other result — including
`Error` — lets the loop continue. -/
def eval_block_go (M : FloatModel) (stmts : List (Statement M.F))
    (result : Object M.F) : Outcome M.F :=
  match stmts with
  | [] => .ok result
  | stmt :: rest =>
    match eval_statement M stmt with
    | .fatal => .fatal
    | .panic => .panic
    | .ok r =>
      match r with
      | .Return v => .ok (.Return v)
      | _ => eval_block_go M rest r
termination_by (sizeOf stmts, 0)
decreasing_by all_goals (simp_wf; try simp [Prod.lex_def]; try omega)

/-- The `match &node.condition` step shared by `eval_if_expression` and
`eval_else_expression`: an absent condition evaluates to `None`. -/
def cond_object (M : FloatModel) : Option (Expression M.F) → Outcome M.F
  | some condition => eval_expression M condition
  | none => .ok .None
termination_by c => (sizeOf c, 1)
decreasing_by all_goals (simp_wf; try simp [Prod.lex_def]; try omega)

/-- `eval_if_expression` (`evaluator.rs:151`): the head link matches
when its condition object is not `None` (structural `!=`, under which
`is_truthy` is not called on a `None` condition) and `is_truthy` returns
`true`; otherwise the alternative link is tried, and `UnMetIf` results
when there is none. -/
def eval_if_expression (M : FloatModel) : IfExpression M.F → Outcome M.F
  | .mk _if_type condition consequence alternative =>
    match cond_object M condition with
    | .fatal => .fatal
    | .panic => .panic
    | .ok c => eval_if_branch M (cond_check M.beq c) consequence alternative
termination_by e => (sizeOf e, 2)
decreasing_by all_goals (simp_wf; try simp [Prod.lex_def]; try omega)

/-- `eval_else_expression` (`evaluator.rs:167`): the link's condition is
evaluated first; the link matches when `if_type == ELSE || (if_type ==
ELSEIF && is_truthy(condition))` (Rust's `&&` binds tighter than `||`
and both short-circuit); otherwise the next link is tried, and `UnMetIf`
results at the end of the chain. -/
def eval_else_expression (M : FloatModel) : IfExpression M.F → Outcome M.F
  | .mk if_type condition consequence alternative =>
    match cond_object M condition with
    | .fatal => .fatal
    | .panic => .panic
    | .ok c => eval_if_branch M (else_check if_type c) consequence alternative
termination_by e => (sizeOf e, 2)
decreasing_by all_goals (simp_wf; try simp [Prod.lex_def]; try omega)

/-- The shared tail of `eval_if_expression` and `eval_else_expression`
once the link's match test has been decided: a fatal test aborts; a
matching link evaluates its consequence block; a non-matching link
recurses into the alternative link, yielding `UnMetIf` when there is
none (`evaluator.rs:158`/`174`, the identical `if`/`else if`/`else`
shape of both functions). -/
def eval_if_branch (M : FloatModel) (tr : Truthiness)
    (consequence : List (Statement M.F))
    (alternative : Option (IfExpression M.F)) : Outcome M.F :=
  match tr with
  | .fatal => .fatal
  | .val true => eval_block_go M consequence .None
  | .val false =>
    match alternative with
    | some alt => eval_else_expression M alt
    | none => .ok .UnMetIf
termination_by (sizeOf consequence + sizeOf alternative, 1)
decreasing_by all_goals (simp_wf; try simp [Prod.lex_def]; try omega)

/-- `eval_return_statement` (`evaluator.rs:183`): evaluates the return
value (the Rust code routes it through `Statement::EXPRESSION`, which
is definitionally `eval_expression`) and wraps whatever object results
— even an `Error` — in a `Return`. -/
def eval_return_statement (M : FloatModel) (ret_value : Expression M.F) :
    Outcome M.F :=
  match eval_expression M ret_value with
  | .fatal => .fatal
  | .panic => .panic
  | .ok value => .ok (.Return value)
termination_by (sizeOf ret_value, 1)
decreasing_by all_goals (simp_wf; try simp [Prod.lex_def]; try omega)

/-- `eval_call` (`evaluator.rs:190`): only a call whose callee is the
identifier naming the print built-in is implemented (`todo!()`/panic
otherwise); its arguments are evaluated eagerly left to right with no
short-circuiting, the built-in's side effect (printing) happens, and
the call's value is the `BuiltInFunction` receipt carrying the
evaluated arguments. -/
def eval_call (M : FloatModel) (function : Expression M.F)
    (args : List (Expression M.F)) : Outcome M.F :=
  match function with
  | .IDENTIFIER ident =>
    if ident == printName then
      match eval_call_args M args with
      | .fatal => .fatal
      | .panic => .panic
      | .ok objs => .ok (.BuiltInFunction .PRINT objs)
    else .panic
  | _ => .panic
termination_by (sizeOf function + sizeOf args, 1)
decreasing_by all_goals (simp_wf; try simp [Prod.lex_def]; try omega)

/-- The argument loop of `eval_call`: each argument is evaluated and
pushed in order; every normally returned object — `Error` and `Return`
objects included — is collected as an ordinary value. -/
def eval_call_args (M : FloatModel) : List (Expression M.F) → ArgsOutcome M.F
  | [] => .ok []
  | arg :: rest =>
    match eval_expression M arg with
    | .fatal => .fatal
    | .panic => .panic
    | .ok o =>
      match eval_call_args M rest with
      | .fatal => .fatal
      | .panic => .panic
      | .ok objs => .ok (o :: objs)
termination_by a => (sizeOf a, 0)
decreasing_by all_goals (simp_wf; try simp [Prod.lex_def]; try omega)
end
/-- `eval_block_statement` (`evaluator.rs:136`): runs the block's
statements with the running `result` initialised to `None`. -/
def eval_block_statement (M : FloatModel) (block : List (Statement M.F)) :
    Outcome M.F :=
  eval_block_go M block .None

/-- Result of `eval_program` (`evaluator.rs:16`), whose Rust return type
is `Option<Object>`: `res` carries that option (`res none` is the
internal "no value yet" marker left by an unmatched `if`), while
`fatal`/`panic` propagate process termination and `todo!()` panics. -/
inductive ProgResult (F : Type) where
  | res : Option (Object F) → ProgResult F
  | fatal : ProgResult F
  | panic : ProgResult F

/-- The statement loop of `eval_program` (`evaluator.rs:16`): a `Return`
result stops everything and its unwrapped value is the program's
result; an `Error` stops everything and is the result; an `UnMetIf`
resets the running result to `none` and evaluation continues; any other
object becomes the running result. -/
def eval_program_go (M : FloatModel) :
    List (Statement M.F) → Option (Object M.F) → ProgResult M.F
  | [], result => .res result
  | stmt :: rest, _ =>
    match eval_statement M stmt with
    | .fatal => .fatal
    | .panic => .panic
    | .ok r =>
      match r with
      | .Return v => .res (some v)
      | .Error e => .res (some (.Error e))
      | .UnMetIf => eval_program_go M rest none
      | o => eval_program_go M rest (some o)

/-- `eval_program` (`evaluator.rs:16`): the running result starts as
`Some(Object::None)`. -/
def eval_program (M : FloatModel) (program : Program M.F) : ProgResult M.F :=
  eval_program_go M program.statements (some .None)

/-! ## Parser (`src/parser.rs`)

The parser operates on a token stream with a two-token lookahead
window.  `tokens.rs` is not under `src/`; `TokenType` lists the kinds
`parser.rs` refers to.  The two `while !cur_token_is(EOL)` skip loops
are modelled with explicit fuel (the Rust loops never terminate when
the stream has no remaining `EOL`, since `next_token` leaves the
lookahead window unchanged at the end of the stream); exhausted fuel
is reported as a distinguished `noFuel` outcome. -/

/-- Token kinds referred to by `parser.rs` (including the commented-out
`prefix_parse` arms), plus `EOF`/`EOL`/`ILLEGAL`. -/
inductive TokenType where
  | ILLEGAL | EOF | EOL | IDENT | VAR | RETURN | ASSIGN
  | NUMBER | STRING | FUNC | LPARENT | LSQUAREBRAC | LCURLY
  | IF | TRUE | FALSE | BANG | MINUS | PLUS
  deriving DecidableEq, Repr

/-- `{:?}` (Rust `Debug`) rendering of a token kind: the variant name. -/
def tokenTypeRepr : TokenType → String
  | .ILLEGAL => "ILLEGAL"
  | .EOF => "EOF"
  | .EOL => "EOL"
  | .IDENT => "IDENT"
  | .VAR => "VAR"
  | .RETURN => "RETURN"
  | .ASSIGN => "ASSIGN"
  | .NUMBER => "NUMBER"
  | .STRING => "STRING"
  | .FUNC => "FUNC"
  | .LPARENT => "LPARENT"
  | .LSQUAREBRAC => "LSQUAREBRAC"
  | .LCURLY => "LCURLY"
  | .IF => "IF"
  | .TRUE => "TRUE"
  | .FALSE => "FALSE"
  | .BANG => "BANG"
  | .MINUS => "MINUS"
  | .PLUS => "PLUS"

/-- A token: kind, literal text and source offset (`tokens.rs`). -/
structure Token where
  token_type : TokenType
  literal : String
  cur_pos : Nat
  deriving DecidableEq, Repr

/-- The parser's mutable state (`parser.rs:9`): the lexed stream, the
two-token lookahead window, the position, the accumulated diagnostics
and the line counter.  The lexer itself is external; of it only
`lexer.input.file_path` is used (for diagnostics), kept here as
`file_path`. -/
structure ParserState where
  token_stream : List Token
  cur_token : Token
  peek_token : Token
  current_pos : Nat
  errors : List String
  line_count : Int
  file_path : String
  deriving DecidableEq, Repr

/-- The expression-precedence ladder (`parser.rs:22`). -/
inductive Precedences where
  | LOWEST | EQUALS | LESSGREATER | LESSGREATEREQUAL
  | SUM | PRODUCT | PREFIXP | CALL
  deriving DecidableEq, Repr

/-- `Parser::new` (`parser.rs:34`): the window is primed with the first
two tokens (the Rust code indexes `token_stream[0]` and `[1]`; a
sub-two-token stream would panic there, modelled by a default token). -/
def mkParser (token_stream : List Token) (file_path : String) : ParserState :=
  { token_stream := token_stream
    cur_token := token_stream.getD 0 ⟨.EOF, "", 0⟩
    peek_token := token_stream.getD 1 ⟨.EOF, "", 0⟩
    current_pos := 0
    errors := []
    line_count := 1
    file_path := file_path }

/-- `next_token` (`parser.rs:47`): advances the window one token; a new
current `EOL` token bumps the line counter; the peek token only moves
while `current_pos + 1` is in bounds. -/
def next_token (p : ParserState) : ParserState :=
  let current_pos := p.current_pos + 1
  let cur_token := p.peek_token
  let line_count :=
    if cur_token.token_type == TokenType.EOL then p.line_count + 1 else p.line_count
  let peek_token :=
    if current_pos + 1 < p.token_stream.length then
      p.token_stream.getD (current_pos + 1) p.peek_token
    else p.peek_token
  { p with current_pos := current_pos, cur_token := cur_token,
           peek_token := peek_token, line_count := line_count }

/-- `cur_token_is` (`parser.rs:153`). -/
def cur_token_is (p : ParserState) (token_type : TokenType) : Bool :=
  p.cur_token.token_type == token_type

/-- `peek_token_is` (`parser.rs:157`). -/
def peek_token_is (p : ParserState) (token_type : TokenType) : Bool :=
  p.peek_token.token_type == token_type

/-- The diagnostic text of `peek_error` (`parser.rs:171`): the exact
`format!` string. -/
def peek_error_msg (p : ParserState) (token_type : TokenType) : String :=
  "expected next token to be " ++ tokenTypeRepr token_type ++ ", found " ++
  tokenTypeRepr p.peek_token.token_type ++ " instead. error at: " ++
  p.file_path ++ ":" ++ toString p.line_count ++ ":" ++
  toString (p.peek_token.cur_pos + 1)

/-- `peek_error` (`parser.rs:171`): appends the formatted diagnostic to
the error list. -/
def peek_error (p : ParserState) (token_type : TokenType) : ParserState :=
  { p with errors := p.errors ++ [peek_error_msg p token_type] }

/-- `expect_peek` (`parser.rs:161`): advance on a match, record a
diagnostic and stay put otherwise. -/
def expect_peek (p : ParserState) (token_type : TokenType) :
    Bool × ParserState :=
  if peek_token_is p token_type then (true, next_token p)
  else (false, peek_error p token_type)

/-- The diagnostic text of the `ILLEGAL`-token branch of
`parse_statement` (`parser.rs:79`). -/
def illegal_token_msg (p : ParserState) : String :=
  "Illegal token: '" ++ p.cur_token.literal ++ "' at: " ++ p.file_path ++
  ":" ++ toString p.line_count ++ ":" ++ toString (p.peek_token.cur_pos + 1) ++
  " is not a valid token"

/-- The `while !self.cur_token_is(TokenType::EOL)` skip loops of
`parse_var_statement` and `parse_return_statement`, with fuel. -/
def skip_to_eol : Nat → ParserState → Option ParserState
  | fuel, p =>
    if cur_token_is p TokenType.EOL then some p
    else match fuel with
      | 0 => none
      | n + 1 => skip_to_eol n (next_token p)

/-- Parser-side expression AST: `prefix_parse` (`parser.rs:189`) only
wires up identifiers; every other token kind yields `None`. -/
inductive PExpression where
  | pidentifier : String → PExpression
  deriving DecidableEq, Repr

/-- Parser-side statements, with the field types `parser.rs` actually
uses: `VarStatement { name, value: Option }` (the value is never parsed
and stays `None`), `ReturnStatement { return_value: Option }` (likewise)
and `ExpressionStatement { expression: Option<Expression> }` (the result
of `parse_expression`). -/
inductive PStatement where
  | pvar : String → Option PExpression → PStatement
  | preturn : Option PExpression → PStatement
  | pexpression : Option PExpression → PStatement
  deriving DecidableEq, Repr

/-- Result of `parse_statement`: `ok stmt p` is a normal return of
`Option<Statement>` with the updated parser state; `fatal errors`
models `Parser::throw_error` (`parser.rs:183`), which appends the
message, prints the whole error list and calls `process::exit(1)` —
terminating the parse with a non-zero status; `noFuel` reports an
exhausted skip-loop fuel. -/
inductive ParseRes where
  | ok : Option PStatement → ParserState → ParseRes
  | fatal : List String → ParseRes
  | noFuel : ParseRes
  deriving DecidableEq, Repr

/-- `parse_identifier` (`parser.rs:149`). -/
def parse_identifier (p : ParserState) : PExpression :=
  .pidentifier p.cur_token.literal

/-- `prefix_parse` (`parser.rs:189`): only `IDENT` is wired up; every
other token kind (including the commented-out future arms) yields
`None`. -/
def prefix_parse (p : ParserState) : Option PExpression :=
  match p.cur_token.token_type with
  | .IDENT => some (parse_identifier p)
  | _ => none

/-- `parse_expression` (`parser.rs:140`): tries the prefix table and
returns its result (the climbing loop is an unfilled slot). -/
def parse_expression (p : ParserState) (_precedence : Precedences) :
    Option PExpression :=
  prefix_parse p

/-- `parse_expression_statement` (`parser.rs:133`): wraps
`parse_expression`'s `Option<Expression>` result and advances once. -/
def parse_expression_statement (p : ParserState) : PStatement × ParserState :=
  (.pexpression (parse_expression p Precedences.LOWEST), next_token p)

/-- `parse_var_statement` (`parser.rs:94`): requires `IDENT` then
`ASSIGN` via `expect_peek` — a mismatch yields `None` with the
diagnostic already recorded — then skips to the end of the line and
emits a `Var` statement carrying only the name. -/
def parse_var_statement (fuel : Nat) (p : ParserState) : ParseRes :=
  match expect_peek p TokenType.IDENT with
  | (false, p1) => .ok none p1
  | (true, p1) =>
    let name := p1.cur_token.literal
    match expect_peek p1 TokenType.ASSIGN with
    | (false, p2) => .ok none p2
    | (true, p2) =>
      match skip_to_eol fuel p2 with
      | none => .noFuel
      | some p3 => .ok (some (.pvar name none)) p3

/-- `parse_return_statement` (`parser.rs:120`): skips to the end of the
line and emits a `Return` statement with no value. -/
def parse_return_statement (fuel : Nat) (p : ParserState) : ParseRes :=
  match skip_to_eol fuel p with
  | none => .noFuel
  | some p1 => .ok (some (.preturn none)) p1

/-- `parse_statement` (`parser.rs:73`): dispatch on the current token
kind.  `ILLEGAL` formats its diagnostic and calls `throw_error`, which
prints the accumulated errors and exits the process with status 1
(`fatal`); `EOL` consumes the token and produces no statement; any
other unhandled kind is parsed as an expression statement. -/
def parse_statement (fuel : Nat) (p : ParserState) : ParseRes :=
  match p.cur_token.token_type with
  | .VAR => parse_var_statement fuel p
  | .RETURN => parse_return_statement fuel p
  | .ILLEGAL => .fatal (p.errors ++ [illegal_token_msg p])
  | .EOL => .ok none (next_token p)
  | _ =>
    let (stmt, p1) := parse_expression_statement p
    .ok (some stmt) p1

/-- Result of `parse_program`: the collected statements and the final
diagnostic list (printed after the loop), or a propagated fatal abort,
or exhausted fuel. -/
inductive ProgramRes where
  | ok : List PStatement → List String → ProgramRes
  | fatal : List String → ProgramRes
  | noFuel : ProgramRes
  deriving DecidableEq, Repr

/-- The loop of `parse_program` (`parser.rs:58`): until the current
token is `EOF`, parse a statement, push it if it is not `None`, and
advance one token. -/
def parse_program_go : Nat → ParserState → List PStatement → ProgramRes
  | fuel, p, acc =>
    if p.cur_token.token_type == TokenType.EOF then .ok acc p.errors
    else match fuel with
      | 0 => .noFuel
      | n + 1 =>
        match parse_statement n p with
        | .fatal errs => .fatal errs
        | .noFuel => .noFuel
        | .ok stmt p1 =>
          let acc1 := match stmt with
            | some s => acc ++ [s]
            | none => acc
          parse_program_go n (next_token p1) acc1

/-- `parse_program` (`parser.rs:58`). -/
def parse_program (fuel : Nat) (p : ParserState) : ProgramRes :=
  parse_program_go fuel p []

/-! ## Concrete model and statement-level predicates -/

/-- A concrete `FloatModel` instance (carrier `Int`) used to exercise
the theorems on explicit inputs; any model works, the claims are proved
for all of them. -/
def intModel : FloatModel where
  F := Int
  add := fun a b => a + b
  sub := fun a b => a - b
  mul := fun a b => a * b
  div := fun a b => a / b
  neg := fun a => -a
  gt := fun a b => decide (b < a)
  lt := fun a b => decide (a < b)
  ge := fun a b => decide (b ≤ a)
  le := fun a b => decide (a ≤ b)
  beq := fun a b => decide (a = b)

/-- A tail link (and, recursively, its whole chain) matches nothing:
its condition evaluates normally, it is not an `ELSE` link, and if it
is an `ELSEIF` link its condition is falsy (without a fatal abort). -/
def elseChainUnmet (M : FloatModel) : IfExpression M.F → Prop
  | .mk if_type condition _consequence alternative =>
    (∃ c, cond_object M condition = .ok c ∧ if_type ≠ IfType.ELSE ∧
      (if_type = IfType.ELSEIF → is_truthy c = .val false)) ∧
    (match alternative with
     | none => True
     | some alt => elseChainUnmet M alt)
termination_by e => sizeOf e

/-- Token stream for the worked parser example: `var x 5 \n return \n`,
whose `var` statement is malformed (`5` where `=` is expected). -/
def exampleTokenStream : List Token :=
  [⟨.VAR, "var", 0⟩, ⟨.IDENT, "x", 1⟩, ⟨.NUMBER, "5", 2⟩, ⟨.EOL, "\n", 3⟩,
   ⟨.RETURN, "return", 4⟩, ⟨.EOL, "\n", 5⟩, ⟨.EOF, "", 6⟩]

/-- Parser state for a `var` statement whose next token is not an
identifier. -/
def exampleParserA : ParserState :=
  mkParser [⟨.VAR, "var", 0⟩, ⟨.LPARENT, "(", 1⟩, ⟨.EOF, "", 2⟩] "t.nx"

/-- Parser state for a `var x` statement whose next token is not `=`. -/
def exampleParserB : ParserState :=
  mkParser [⟨.VAR, "var", 0⟩, ⟨.IDENT, "x", 1⟩, ⟨.NUMBER, "5", 2⟩,
            ⟨.EOF, "", 3⟩] "t.nx"

/-- Parser state whose current token is `ILLEGAL`. -/
def exampleParserC : ParserState :=
  mkParser [⟨.ILLEGAL, "$", 0⟩, ⟨.EOF, "", 1⟩] "t.nx"

/-! ## Theorems -/

/-- If `is_truthy` returns `true` on an object, that object is not the
`None` object, so the structural `condition != None` test of
`eval_if_expression` passes. -/
theorem objBeq_none_of_truthy {F : Type} (beq : F → F → Bool) (c : Object F)
    (h : is_truthy c = .val true) : objBeq beq c .None = false := by
  cases c <;> simp_all [is_truthy, objBeq]

/-- C4: a `Return` produced by a statement stops block evaluation with
the `Return` still wrapped (independently of the remaining statements),
and stops program evaluation immediately with the unwrapped value as
the program's final result. -/
theorem C4_return_propagation (M : FloatModel) (s : Statement M.F)
    (rest : List (Statement M.F)) (r : Object M.F) (res : Option (Object M.F))
    (v : Object M.F) (h : eval_statement M s = .ok (.Return v)) :
    eval_block_go M (s :: rest) r = .ok (.Return v) ∧
    eval_program_go M (s :: rest) res = .res (some v) := by
  constructor
  · simp [eval_block_go, h]
  · simp [eval_program_go, h]

/-- Witness for C4 on a concrete input: `return true` followed by a
further statement; the block keeps the wrapped `Return`, the program
yields `Bool(TRUE)`. -/
theorem C4_witness :
    eval_block_go intModel
        [.RETURN (.BOOLEAN .TRUE), .EXPRESSION (.BOOLEAN .FALSE)] .None =
      .ok (.Return (.Bool .TRUE)) ∧
    eval_program_go intModel
        [.RETURN (.BOOLEAN .TRUE), .EXPRESSION (.BOOLEAN .FALSE)]
        (some .None) =
      .res (some (.Bool .TRUE)) := by
  refine C4_return_propagation intModel (.RETURN (.BOOLEAN .TRUE))
    [.EXPRESSION (.BOOLEAN .FALSE)] .None (some .None) (.Bool .TRUE) ?_
  simp [eval_statement, eval_return_statement, eval_expression]

/-- C5: on two number literals, every arithmetic and comparison
operator evaluates to exactly the native (model) operation applied to
the two payloads — `Num` for `+ - * /` (division included, with no
special case for a zero divisor, so the result is whatever the native
IEEE-754 division produces, never an `Error`), `Bool` for the six
comparisons. -/
theorem C5_numeric_infix_native (M : FloatModel) (a b : M.F) :
    eval_expression M (.INFIXEXPR .PLUS (.NUMBERLITERAL a) (.NUMBERLITERAL b)) =
      .ok (.Num (M.add a b)) ∧
    eval_expression M (.INFIXEXPR .MINUS (.NUMBERLITERAL a) (.NUMBERLITERAL b)) =
      .ok (.Num (M.sub a b)) ∧
    eval_expression M (.INFIXEXPR .MULTIPLY (.NUMBERLITERAL a) (.NUMBERLITERAL b)) =
      .ok (.Num (M.mul a b)) ∧
    eval_expression M (.INFIXEXPR .DIVIDE (.NUMBERLITERAL a) (.NUMBERLITERAL b)) =
      .ok (.Num (M.div a b)) ∧
    eval_expression M (.INFIXEXPR .GREATTHAN (.NUMBERLITERAL a) (.NUMBERLITERAL b)) =
      .ok (native_bool_to_object (M.gt a b)) ∧
    eval_expression M (.INFIXEXPR .LESSTHAN (.NUMBERLITERAL a) (.NUMBERLITERAL b)) =
      .ok (native_bool_to_object (M.lt a b)) ∧
    eval_expression M (.INFIXEXPR .GREATOREQUAL (.NUMBERLITERAL a) (.NUMBERLITERAL b)) =
      .ok (native_bool_to_object (M.ge a b)) ∧
    eval_expression M (.INFIXEXPR .LESSOREQUAL (.NUMBERLITERAL a) (.NUMBERLITERAL b)) =
      .ok (native_bool_to_object (M.le a b)) ∧
    eval_expression M (.INFIXEXPR .EQUAL (.NUMBERLITERAL a) (.NUMBERLITERAL b)) =
      .ok (native_bool_to_object (M.beq a b)) ∧
    eval_expression M (.INFIXEXPR .NOTEQUAL (.NUMBERLITERAL a) (.NUMBERLITERAL b)) =
      .ok (native_bool_to_object (!(M.beq a b))) := by
  refine ⟨?_, ?_, ?_, ?_, ?_, ?_, ?_, ?_, ?_, ?_⟩ <;>
    simp [eval_expression, eval_infix_expression, eval_integer_infix_expression,
          Object.get_type]

/-- C6: `is_truthy` maps `Bool(TRUE)` to `true`, `Bool(FALSE)` and
`None` to `false`, and on every other variant it does not return
normally: it hits the `throw_error` arm, which terminates the whole
process (`Truthiness.fatal`, a non-`Object` outcome, so in particular
no recoverable `Error` object is produced). -/
theorem C6_is_truthy_fatal {F : Type} :
    is_truthy (Object.Bool .TRUE : Object F) = .val true ∧
    is_truthy (Object.Bool .FALSE : Object F) = .val false ∧
    is_truthy (Object.None : Object F) = .val false ∧
    (∀ o : Object F, (∀ b, o ≠ .Bool b) → o ≠ .None → is_truthy o = .fatal) := by
  refine ⟨rfl, rfl, rfl, ?_⟩
  intro o hb hn
  cases o <;> simp_all [is_truthy]

/-- Witness for C6: applied at the `Num 0` object of the `Int` model,
whose truthiness check is fatal. -/
theorem C6_witness :
    is_truthy (Object.Num (0 : Int)) = .fatal := by
  exact (C6_is_truthy_fatal (F := Int)).2.2.2 (.Num 0) (by simp) (by simp)

/-- C9: prefix `!` flips `Bool(TRUE)` and `Bool(FALSE)` and maps the
`None` object to itself (not to a `Bool`); prefix `-` negates `Num`
payloads with the native negation and returns every non-`Num` operand
unchanged rather than producing an `Error`. -/
theorem C9_prefix_bang_minus (M : FloatModel) :
    eval_expression M (.PREFIXEXPR .BANG (.BOOLEAN .TRUE)) = .ok (.Bool .FALSE) ∧
    eval_expression M (.PREFIXEXPR .BANG (.BOOLEAN .FALSE)) = .ok (.Bool .TRUE) ∧
    eval_expression M (.PREFIXEXPR .BANG .NONE) = .ok .None ∧
    (∀ x : M.F, eval_expression M (.PREFIXEXPR .MINUS (.NUMBERLITERAL x)) =
      .ok (.Num (M.neg x))) ∧
    (∀ (e : Expression M.F) (o : Object M.F), eval_expression M e = .ok o →
      (∀ x, o ≠ .Num x) →
      eval_expression M (.PREFIXEXPR .MINUS e) = .ok o) := by
  refine ⟨?_, ?_, ?_, ?_, ?_⟩
  · simp [eval_expression, eval_prefix_expression, eval_bang_expression]
  · simp [eval_expression, eval_prefix_expression, eval_bang_expression]
  · simp [eval_expression, eval_prefix_expression, eval_bang_expression]
  · intro x
    simp [eval_expression, eval_prefix_expression, eval_minus_expression]
  · intro e o h hnum
    have : eval_minus_expression M o = o := by
      cases o <;> simp_all [eval_minus_expression]
    simp [eval_expression, eval_prefix_expression, h, this]

/-- Witness for C9: the non-`Num` fallback applied at `Bool(TRUE)`:
`-(true)` evaluates to `Bool(TRUE)` unchanged. -/
theorem C9_witness :
    eval_expression intModel (.PREFIXEXPR .MINUS (.BOOLEAN .TRUE)) =
      .ok (.Bool .TRUE) := by
  exact (C9_prefix_bang_minus intModel).2.2.2.2 (.BOOLEAN .TRUE) (.Bool .TRUE)
    (by simp [eval_expression]) (by simp)

/-- C10: a call whose callee is the identifier naming the print
built-in evaluates its arguments eagerly left to right and yields the
`BuiltInFunction` receipt carrying the evaluated arguments; a normally
produced `Error` or `Return` object from an argument does not
short-circuit the loop — it is consed into the receipt's argument list
like any other value. -/
theorem C10_print_call_receipt (M : FloatModel) :
    (∀ (args : List (Expression M.F)) (objs : List (Object M.F)),
      eval_call_args M args = .ok objs →
      eval_expression M (.CALL (.IDENTIFIER printName) args) =
        .ok (.BuiltInFunction .PRINT objs)) ∧
    (∀ (a : Expression M.F) (rest : List (Expression M.F)) (o : Object M.F)
      (objs : List (Object M.F)),
      eval_expression M a = .ok o → eval_call_args M rest = .ok objs →
      eval_call_args M (a :: rest) = .ok (o :: objs)) := by
  constructor
  · intro args objs h
    simp [eval_expression, eval_call, h]
  · intro a rest o objs ha hrest
    simp [eval_call_args, ha, hrest]

/-- Witness for C10: `print(<empty>, true)` — the first argument
evaluates to an `Error` object, yet the second is still evaluated and
the call yields the receipt `BuiltInFunction(PRINT, [Error, Bool(TRUE)])`. -/
theorem C10_witness :
    eval_expression intModel (.CALL (.IDENTIFIER printName)
        [Expression.EMPTY, .BOOLEAN .TRUE]) =
      .ok (.BuiltInFunction .PRINT [.Error .cannotEvaluateEmpty, .Bool .TRUE]) := by
  refine (C10_print_call_receipt intModel).1
    [Expression.EMPTY, .BOOLEAN .TRUE]
    [.Error .cannotEvaluateEmpty, .Bool .TRUE] ?_
  refine (C10_print_call_receipt intModel).2 Expression.EMPTY [.BOOLEAN .TRUE]
    (.Error .cannotEvaluateEmpty) [.Bool .TRUE] ?_ ?_
  · simp [eval_expression]
  · simp [eval_call_args, eval_expression]

/-- C1 counterexample: inside a block, an `Error` does **not** stop
evaluation.  The first statement of this block evaluates to an `Error`
object, yet the second statement is still evaluated and its value —
not the `Error` — is the block's result: `eval_block_statement` only
short-circuits on `Return` (`evaluator.rs:142`), so the claim's "for
every block … evaluation stops immediately" is false. -/
theorem C1_counterexample :
    eval_statement intModel (.EXPRESSION .EMPTY) =
      .ok (.Error .cannotEvaluateEmpty) ∧
    eval_block_statement intModel
        [.EXPRESSION .EMPTY, .EXPRESSION (.BOOLEAN .TRUE)] =
      .ok (.Bool .TRUE) := by
  constructor
  · simp [eval_statement, eval_expression]
  · simp [eval_block_statement, eval_block_go, eval_statement, eval_expression]

/-- C1 (amended): at program level an `Error` result stops evaluation
immediately — no later statement runs — and that `Error` is the
program's final result; inside a block an `Error` does not stop
evaluation: the block continues with the `Error` merely held as the
running result, to be overwritten by later statements (only `Return`
short-circuits a block). -/
theorem C1_amended (M : FloatModel) (s : Statement M.F)
    (rest : List (Statement M.F)) (res : Option (Object M.F))
    (r : Object M.F) (m : ErrMsg M.F)
    (h : eval_statement M s = .ok (.Error m)) :
    eval_program_go M (s :: rest) res = .res (some (.Error m)) ∧
    eval_block_go M (s :: rest) r = eval_block_go M rest (.Error m) := by
  constructor
  · simp [eval_program_go, h]
  · simp [eval_block_go, h]

/-- Witness for C1 (amended) at a concrete input: an erroring statement
followed by `true`; the program stops with the `Error`, the block
continues into its tail. -/
theorem C1_witness :
    eval_program_go intModel
        [.EXPRESSION .EMPTY, .EXPRESSION (.BOOLEAN .TRUE)] (some .None) =
      .res (some (.Error .cannotEvaluateEmpty)) ∧
    eval_block_go intModel
        [.EXPRESSION .EMPTY, .EXPRESSION (.BOOLEAN .TRUE)] .None =
      eval_block_go intModel [.EXPRESSION (.BOOLEAN .TRUE)]
        (.Error .cannotEvaluateEmpty) := by
  exact C1_amended intModel (.EXPRESSION .EMPTY) [.EXPRESSION (.BOOLEAN .TRUE)]
    (some .None) .None .cannotEvaluateEmpty (by simp [eval_statement, eval_expression])

/-- C3 counterexample: `eval_program` **can** return `UnMetIf` as its
final result.  A `return` statement whose value is an unmatched `if`
wraps `UnMetIf` in a `Return`; the program driver unwraps the `Return`
and yields `Some(UnMetIf)` without ever hitting the `UnMetIf` reset
arm. -/
theorem C3_counterexample :
    eval_program intModel
        ⟨[.RETURN (.IF (.mk .IF (some (.BOOLEAN .FALSE)) [] none))]⟩ =
      .res (some .UnMetIf) := by
  simp [eval_program, eval_program_go, eval_statement, eval_return_statement,
        eval_expression, eval_if_expression, eval_if_branch, cond_object,
        cond_check, objBeq, is_truthy]

/-- C3 (amended): when a statement evaluates *directly* to `UnMetIf`,
the running result is reset to the `none` marker — which is distinct
from `Some(Object::None)`, the value of an explicit `None` — and
evaluation continues with the remaining statements; `UnMetIf` can still
become `eval_program`'s final result when it escapes wrapped inside a
`Return` (see the counterexample), so the unqualified "never returns
UnMetIf" invariant does not hold. -/
theorem C3_amended (M : FloatModel) (s : Statement M.F)
    (rest : List (Statement M.F)) (res : Option (Object M.F))
    (h : eval_statement M s = .ok .UnMetIf) :
    eval_program_go M (s :: rest) res = eval_program_go M rest none ∧
    (none : Option (Object M.F)) ≠ some .None := by
  constructor
  · simp [eval_program_go, h]
  · simp

/-- Witness for C3 (amended): a program whose single statement is an
unmatched `if`; the result is reset to the `none` marker and, with no
later statement, the program ends with `res none`. -/
theorem C3_witness :
    eval_program_go intModel
        [.EXPRESSION (.IF (.mk .IF (some (.BOOLEAN .FALSE)) [] none))]
        (some .None) =
      .res none ∧
    (none : Option (Object intModel.F)) ≠ some .None := by
  have h := C3_amended intModel
    (.EXPRESSION (.IF (.mk .IF (some (.BOOLEAN .FALSE)) [] none))) [] (some .None)
    (by simp [eval_statement, eval_expression, eval_if_expression,
              eval_if_branch, cond_object, cond_check, objBeq, is_truthy])
  exact ⟨h.1.trans (by simp [eval_program_go]), h.2⟩

/-- C8: when the two evaluated operands of an infix expression are not
both numbers, `==` yields the `Bool` of structural object equality,
`!=` its negation, and every other operator yields an `Error` naming
the left operand, the right operand and the operator; structural
equality compares variant plus payload (`Num` against `Num` by the
native float equality; `Num` against `Bool` is always false). -/
theorem C8_structural_equality_nonnumeric (M : FloatModel) :
    (∀ (l r : Expression M.F) (lo ro : Object M.F),
      eval_expression M l = .ok lo → eval_expression M r = .ok ro →
      (lo.get_type == ObjectType.NUMBER && ro.get_type == ObjectType.NUMBER) = false →
      eval_expression M (.INFIXEXPR .EQUAL l r) =
        .ok (native_bool_to_object (objBeq M.beq lo ro)) ∧
      eval_expression M (.INFIXEXPR .NOTEQUAL l r) =
        .ok (native_bool_to_object (!(objBeq M.beq lo ro))) ∧
      (∀ op : Operator, op ≠ .EQUAL → op ≠ .NOTEQUAL →
        eval_expression M (.INFIXEXPR op l r) =
          .ok (.Error (.unknownOperation lo ro op)))) ∧
    (∀ x y : M.F, objBeq M.beq (.Num x) (.Num y) = M.beq x y) ∧
    (∀ (x : M.F) (b : BooleanType), objBeq M.beq (.Num x) (.Bool b) = false) := by
  refine ⟨?_, ?_, ?_⟩
  · intro l r lo ro hl hr hnum
    refine ⟨?_, ?_, ?_⟩
    · simp [eval_expression, eval_infix_expression, hl, hr, hnum]
    · simp [eval_expression, eval_infix_expression, hl, hr, hnum]
    · intro op hop1 hop2
      simp [eval_expression, eval_infix_expression, hl, hr, hnum, hop1, hop2]
  · intro x y
    simp [objBeq]
  · intro x b
    simp [objBeq]

/-- Witness for C8: comparing `Bool(TRUE)` with the `None` object:
`==` yields `Bool(FALSE)` (structurally unequal), and `+` on the same
operands yields the descriptive `Error`. -/
theorem C8_witness :
    eval_expression intModel (.INFIXEXPR .EQUAL (.BOOLEAN .TRUE) .NONE) =
      .ok (.Bool .FALSE) ∧
    eval_expression intModel (.INFIXEXPR .PLUS (.BOOLEAN .TRUE) .NONE) =
      .ok (.Error (.unknownOperation (.Bool .TRUE) .None .PLUS)) := by
  have h := (C8_structural_equality_nonnumeric intModel).1 (.BOOLEAN .TRUE) .NONE
    (.Bool .TRUE) .None (by simp [eval_expression]) (by simp [eval_expression])
    (by simp [Object.get_type])
  constructor
  · exact h.1.trans (by simp [objBeq, native_bool_to_object])
  · exact h.2.2 .PLUS (by simp) (by simp)

/-- A tail chain none of whose links matches evaluates to `UnMetIf`
(recursion along the `alternative` chain). -/
theorem elseChainUnmet_eval (M : FloatModel) :
    ∀ e : IfExpression M.F, elseChainUnmet M e →
      eval_else_expression M e = .ok .UnMetIf
  | .mk t cond cons alt => by
    intro h
    rw [elseChainUnmet.eq_def] at h
    obtain ⟨⟨c, hc, hne, hei⟩, halt⟩ := h
    have hsel : else_check t c = .val false := by
      cases t with
      | IF => simp [else_check]
      | ELSEIF => simp [else_check, hei rfl]
      | ELSE => exact absurd rfl hne
    cases alt with
    | none => simp [eval_else_expression, hc, hsel, eval_if_branch]
    | some a =>
      have ih := elseChainUnmet_eval M a halt
      simp [eval_else_expression, hc, hsel, eval_if_branch, ih]
termination_by e => sizeOf e

/-- C2: conditional chains are tried left to right with first-match
semantics.  The head link matches when its condition evaluates to an
object that is not `None` and is truthy (a true `is_truthy` implies the
structural `!= None` test passes); on a non-match the chain recurses
into the alternative link, and yields `UnMetIf` when there is none.  An
`ELSE` link always matches; an `ELSEIF` link matches exactly when its
condition is truthy.  A whole tail chain with no matching link and no
`else` evaluates to the `UnMetIf` sentinel, which is not an `Error`
object. -/
theorem C2_if_chain (M : FloatModel) :
    (∀ (t : IfType) (cond : Option (Expression M.F)) cons alt (c : Object M.F),
      cond_object M cond = .ok c → is_truthy c = .val true →
      eval_if_expression M (.mk t cond cons alt) = eval_block_statement M cons) ∧
    (∀ (t : IfType) (cond : Option (Expression M.F)) cons alt (c : Object M.F),
      cond_object M cond = .ok c → is_truthy c = .val false →
      eval_if_expression M (.mk t cond cons (some alt)) =
        eval_else_expression M alt) ∧
    (∀ (t : IfType) (cond : Option (Expression M.F)) cons (c : Object M.F),
      cond_object M cond = .ok c → is_truthy c = .val false →
      eval_if_expression M (.mk t cond cons none) = .ok .UnMetIf) ∧
    (∀ (cond : Option (Expression M.F)) cons alt (c : Object M.F),
      cond_object M cond = .ok c →
      eval_else_expression M (.mk .ELSE cond cons alt) =
        eval_block_statement M cons) ∧
    (∀ (cond : Option (Expression M.F)) cons alt (c : Object M.F),
      cond_object M cond = .ok c → is_truthy c = .val true →
      eval_else_expression M (.mk .ELSEIF cond cons alt) =
        eval_block_statement M cons) ∧
    (∀ (cond : Option (Expression M.F)) cons alt (c : Object M.F),
      cond_object M cond = .ok c → is_truthy c = .val false →
      eval_else_expression M (.mk .ELSEIF cond cons (some alt)) =
        eval_else_expression M alt) ∧
    (∀ (cond : Option (Expression M.F)) cons (c : Object M.F),
      cond_object M cond = .ok c → is_truthy c = .val false →
      eval_else_expression M (.mk .ELSEIF cond cons none) = .ok .UnMetIf) ∧
    (∀ e : IfExpression M.F, elseChainUnmet M e →
      eval_else_expression M e = .ok .UnMetIf) ∧
    (∀ m : ErrMsg M.F, (Object.UnMetIf : Object M.F) ≠ .Error m) := by
  have hfalse : ∀ c : Object M.F, is_truthy c = .val false →
      cond_check M.beq c = .val false := by
    intro c hc
    unfold cond_check
    by_cases hb : objBeq M.beq c .None = true <;> simp [hb, hc]
  refine ⟨?_, ?_, ?_, ?_, ?_, ?_, ?_, elseChainUnmet_eval M, by simp⟩
  · intro t cond cons alt c hc ht
    have hb := objBeq_none_of_truthy M.beq c ht
    have hct : cond_check M.beq c = .val true := by simp [cond_check, hb, ht]
    simp [eval_if_expression, hc, hct, eval_if_branch, eval_block_statement]
  · intro t cond cons alt c hc ht
    simp [eval_if_expression, hc, hfalse c ht, eval_if_branch]
  · intro t cond cons c hc ht
    simp [eval_if_expression, hc, hfalse c ht, eval_if_branch]
  · intro cond cons alt c hc
    have hct : else_check IfType.ELSE c = .val true := by simp [else_check]
    simp [eval_else_expression, hc, hct, eval_if_branch, eval_block_statement]
  · intro cond cons alt c hc ht
    have hct : else_check IfType.ELSEIF c = .val true := by simp [else_check, ht]
    simp [eval_else_expression, hc, hct, eval_if_branch, eval_block_statement]
  · intro cond cons alt c hc ht
    have hcf : else_check IfType.ELSEIF c = .val false := by simp [else_check, ht]
    simp [eval_else_expression, hc, hcf, eval_if_branch]
  · intro cond cons c hc ht
    have hcf : else_check IfType.ELSEIF c = .val false := by simp [else_check, ht]
    simp [eval_else_expression, hc, hcf, eval_if_branch]

/-- Witness for C2 at concrete chains: a matching head link runs its
consequence block; an unmatched single-`elseif` tail chain yields
`UnMetIf`. -/
theorem C2_witness :
    eval_if_expression intModel
        (.mk .IF (some (.BOOLEAN .TRUE)) [.EXPRESSION (.BOOLEAN .FALSE)] none) =
      .ok (.Bool .FALSE) ∧
    eval_else_expression intModel
        (.mk .ELSEIF (some (.BOOLEAN .FALSE)) [.EXPRESSION (.BOOLEAN .TRUE)] none) =
      .ok .UnMetIf := by
  constructor
  · have h := (C2_if_chain intModel).1 .IF (some (.BOOLEAN .TRUE))
      [.EXPRESSION (.BOOLEAN .FALSE)] none (.Bool .TRUE)
      (by simp [cond_object, eval_expression]) (by simp [is_truthy])
    exact h.trans (by simp [eval_block_statement, eval_block_go, eval_statement,
      eval_expression])
  · refine (C2_if_chain intModel).2.2.2.2.2.2.2.1
      (.mk .ELSEIF (some (.BOOLEAN .FALSE)) [.EXPRESSION (.BOOLEAN .TRUE)] none) ?_
    rw [elseChainUnmet.eq_def]
    exact ⟨⟨.Bool .FALSE, by simp [cond_object, eval_expression], by simp,
      fun _ => by simp [is_truthy]⟩, trivial⟩

/-- C7: for a current token that is not `ILLEGAL`, an `expect_peek`
mismatch in a malformed `var` statement yields `None` for the statement
slot, appends exactly one formatted diagnostic, and returns normally
(no abort), so `parse_program`'s loop goes on with the remaining
tokens — demonstrated on a worked token stream where a later `return`
statement is still parsed after the mismatch.  For an `ILLEGAL` current
token, the parser appends the illegal-token diagnostic, prints the
accumulated error list and terminates the process with a non-zero
status (`ParseRes.fatal`). -/
theorem C7_parser_error_policy (fuel : Nat) (p : ParserState) :
    (p.cur_token.token_type = .VAR → p.peek_token.token_type ≠ .IDENT →
      parse_statement fuel p = .ok none (peek_error p .IDENT)) ∧
    (p.cur_token.token_type = .VAR → p.peek_token.token_type = .IDENT →
      (next_token p).peek_token.token_type ≠ .ASSIGN →
      parse_statement fuel p = .ok none (peek_error (next_token p) .ASSIGN)) ∧
    (p.cur_token.token_type = .ILLEGAL →
      parse_statement fuel p = .fatal (p.errors ++ [illegal_token_msg p])) ∧
    (parse_program 10 (mkParser exampleTokenStream "main.nx") =
      .ok [.pexpression none, .preturn none]
        ["expected next token to be ASSIGN, found NUMBER instead. error at: main.nx:1:3"]) := by
  refine ⟨?_, ?_, ?_, by decide⟩
  · intro hcur hpeek
    simp [parse_statement, hcur, parse_var_statement, expect_peek, peek_token_is,
          hpeek]
  · intro hcur hpeek hpeek2
    simp [parse_statement, hcur, parse_var_statement, expect_peek, peek_token_is,
          hpeek, hpeek2]
  · intro hcur
    simp [parse_statement, hcur]

/-- Witness for C7 at concrete parser states: a `var` missing its
identifier, a `var x` missing its `=`, and an `ILLEGAL` token. -/
theorem C7_witness :
    parse_statement 5 exampleParserA = .ok none (peek_error exampleParserA .IDENT) ∧
    parse_statement 5 exampleParserB =
      .ok none (peek_error (next_token exampleParserB) .ASSIGN) ∧
    parse_statement 5 exampleParserC =
      .fatal (exampleParserC.errors ++ [illegal_token_msg exampleParserC]) := by
  refine ⟨(C7_parser_error_policy 5 exampleParserA).1 (by decide) (by decide),
    (C7_parser_error_policy 5 exampleParserB).2.1 (by decide) (by decide) (by decide),
    (C7_parser_error_policy 5 exampleParserC).2.2.1 (by decide)⟩

end Nexus
